import Mathlib

/-!
Shallow embedding of `src/Sketch.js` (kandinsky-painter), a single-file
canvas animation: procedural scene generation, a per-frame render loop that
mutates shape records in place, and a small pause/resume/toggle/destroy API.

Modelling conventions:
* JavaScript numbers are modelled as `ℚ` (exact arithmetic; IEEE rounding is
  abstracted away, the claims under study are about control flow, record
  mutation and draw-command structure, not float precision).
* `Math.sin`, `Math.cos` and `Math.PI` are opaque to the claims; they are
  packaged in a `MathEnv` record of abstract functions so every draw routine
  stays executable once a concrete environment is supplied.
* Canvas 2D commands are reified as a trace language `DrawOp`; a draw routine
  returns the updated record (JS mutates in place) together with the list of
  commands it issued, in order.
* `Math.random()` draws are passed in explicitly as values in `[0,1)`
  (a function `ℕ → ℚ` indexed by draw order).
* The shapes array holds duck-typed records with a `type` tag; it is embedded
  as the tagged union `Shape`. Field accesses that may hit a missing field
  (`s.phase` on triangles) go through `Option` and a small JS-value model
  `JSNum` capturing `undefined`/`NaN` propagation and `|| 0`.
-/

namespace Sketch

/-- Abstract interface to `Math.sin` / `Math.cos` / `Math.PI`. -/
structure MathEnv where
  sin : ℚ → ℚ
  cos : ℚ → ℚ
  pi : ℚ

/-- The sketch's `TAU = Math.PI * 2`. -/
def TAU (m : MathEnv) : ℚ := m.pi * 2

/-- A concrete environment used to evaluate the model on closed inputs
(the claims proved against it do not depend on trigonometric values other
than `sin 0 = 0`, which holds here). -/
def mathEnv0 : MathEnv := { sin := fun _ => 0, cos := fun _ => 0, pi := 0 }

/-- The sketch's `rand = (a, b) => a + Math.random() * (b - a)`; the
`Math.random()` result is the explicit argument `u ∈ [0,1)`. -/
def rand (a b u : ℚ) : ℚ := a + u * (b - a)

/-- The sketch's `clamp = (v, a, b) => Math.max(a, Math.min(b, v))`. -/
def clamp (v a b : ℚ) : ℚ := max a (min b v)

/-- The sketch's `lerp = (a, b, t) => a + (b - a) * t`. -/
def lerp (a b t : ℚ) : ℚ := a + (b - a) * t

/-- The fixed 8-color `PALETTE`. -/
def PALETTE : List String :=
  ["#F23B5A", "#FFC857", "#8BD3DD", "#3A7CA5", "#6F2DA8", "#FFFFFF", "#000000", "#FF7AB6"]

/-- Palette pick `PALETTE[Math.floor(rand(0, PALETTE.length))]`. -/
def pickPalette (u : ℚ) : String :=
  PALETTE.getD (rand 0 (PALETTE.length) u).floor.toNat ""

/-! ### Color utility (`hexToRgba`) -/

/-- An `rgba(r,g,b,alpha)` color value as produced by `hexToRgba`. -/
structure Rgba where
  r : ℕ
  g : ℕ
  b : ℕ
  alpha : ℚ
deriving DecidableEq, Repr

/-- Value of one hex digit, as `parseInt(·, 16)` reads it (case-insensitive).
Invalid digits are out of scope: the source performs no validation and the
spec leaves malformed input undefined. -/
def hexDigitVal (c : Char) : ℕ :=
  if c = '0' then 0 else if c = '1' then 1 else if c = '2' then 2
  else if c = '3' then 3 else if c = '4' then 4 else if c = '5' then 5
  else if c = '6' then 6 else if c = '7' then 7 else if c = '8' then 8
  else if c = '9' then 9 else if c = 'a' ∨ c = 'A' then 10
  else if c = 'b' ∨ c = 'B' then 11 else if c = 'c' ∨ c = 'C' then 12
  else if c = 'd' ∨ c = 'D' then 13 else if c = 'e' ∨ c = 'E' then 14
  else if c = 'f' ∨ c = 'F' then 15 else 0

/-- Two-hex-digit `parseInt(d1 ++ d0, 16)`. -/
def parseHex2 (d1 d0 : Char) : ℕ := 16 * hexDigitVal d1 + hexDigitVal d0

/-- JS `hex.replace('#', '')`: removes only the first occurrence of `'#'`. -/
def replaceFirstHash : List Char → List Char
  | [] => []
  | c :: cs => if c = '#' then cs else c :: replaceFirstHash cs

/-- The sketch's `hexToRgba(hex, alpha)`: strips a leading `#`, expands a
3-digit shorthand by digit-doubling, otherwise reads `rr gg bb` slices, and
carries `alpha` through unchanged. -/
def hexToRgba (hex : String) (alpha : ℚ) : Rgba :=
  let h := replaceFirstHash hex.toList
  if h.length = 3 then
    { r := parseHex2 (h.getD 0 ' ') (h.getD 0 ' ')
      g := parseHex2 (h.getD 1 ' ') (h.getD 1 ' ')
      b := parseHex2 (h.getD 2 ' ') (h.getD 2 ' ')
      alpha := alpha }
  else
    { r := parseHex2 (h.getD 0 ' ') (h.getD 1 ' ')
      g := parseHex2 (h.getD 2 ' ') (h.getD 3 ' ')
      b := parseHex2 (h.getD 4 ' ') (h.getD 5 ' ')
      alpha := alpha }

/-! ### JS number semantics for the one expression that needs them

The frame loop evaluates `Math.sin(time * 0.18 + s.phase || 0)` on triangle
records. Triangles have no `phase` field, so `s.phase` is `undefined`,
`time * 0.18 + undefined` is `NaN`, and `NaN || 0` is `0` (NaN is falsy). -/

/-- A JS numeric value: a finite number or `NaN` (which also stands for the
result of arithmetic on `undefined`). -/
inductive JSNum where
  | num (q : ℚ)
  | nan
deriving DecidableEq, Repr

/-- JS `+` on numbers: `NaN` is absorbing. -/
def jsAdd : JSNum → JSNum → JSNum
  | JSNum.num a, JSNum.num b => JSNum.num (a + b)
  | _, _ => JSNum.nan

/-- Reading a possibly-missing numeric field for use in arithmetic:
`undefined` coerces to `NaN`. -/
def jsOfField : Option ℚ → JSNum
  | some q => JSNum.num q
  | none => JSNum.nan

/-- JS `v || 0`: `NaN`, `0` and `-0` are falsy and give `0`; any other
number is truthy and gives itself. -/
def jsOrZero : JSNum → ℚ
  | JSNum.num q => if q = 0 then 0 else q
  | JSNum.nan => 0

/-! ### Scene record types -/

/-- A 2D point in a stroke's polyline. -/
structure Point where
  x : ℚ
  y : ℚ
deriving DecidableEq, Repr

/-- A circle record as built by `makeCircle` (fields in source order). -/
structure Circle where
  x : ℚ
  y : ℚ
  r : ℚ
  fill : String
  stroke : Option String
  strokeWidth : ℚ
  vx : ℚ
  vy : ℚ
  wobble : ℚ
  phase : ℚ
deriving DecidableEq, Repr

/-- A triangle record as built by `makeTriangle` — note: no `phase` field. -/
structure Triangle where
  x : ℚ
  y : ℚ
  size : ℚ
  rotation : ℚ
  rotationSpeed : ℚ
  fill : String
  stroke : Option String
  strokeWidth : ℚ
  skew : ℚ
deriving DecidableEq, Repr

/-- A rectangle record as built by `makeRect`. -/
structure Rect where
  x : ℚ
  y : ℚ
  w : ℚ
  h : ℚ
  rotation : ℚ
  rotationSpeed : ℚ
  fill : String
  stroke : Option String
  strokeWidth : ℚ
deriving DecidableEq, Repr

/-- A stroke record as built by `makeStroke`. -/
structure Stroke where
  points : List Point
  color : String
  width : ℚ
  drift : ℚ
  phase : ℚ
deriving DecidableEq, Repr

/-- A group child (simplified shape in the group's local frame). The `kind`
tag is the string `'circle'`, `'rect'` or `'triangle'` as in the source. -/
structure GChild where
  kind : String
  x : ℚ
  y : ℚ
  r : ℚ
  w : ℚ
  h : ℚ
  fill : String
  stroke : Option String
  strokeWidth : ℚ
deriving DecidableEq, Repr

/-- A rotating group record as built by `makeGroup`. -/
structure Group where
  x : ℚ
  y : ℚ
  rotation : ℚ
  speed : ℚ
  scale : ℚ
  children : List GChild
deriving DecidableEq, Repr

/-- The duck-typed records of the `shapes` array, embedded as a tagged
union keyed on the `type` field. -/
inductive Shape where
  | circle (c : Circle)
  | triangle (tr : Triangle)
  | rect (rc : Rect)
deriving DecidableEq, Repr

/-- The `y` field read by the frame loop's sort comparator (`a.y || 0`);
every variant carries a `y`, and `q || 0 = q` for numbers. -/
def shapeY : Shape → ℚ
  | Shape.circle c => c.y
  | Shape.triangle tr => tr.y
  | Shape.rect rc => rc.y

/-- The possibly-missing `phase` field of a shape record: only circles set
it (`makeTriangle` and `makeRect` do not). -/
def shapePhase : Shape → Option ℚ
  | Shape.circle c => some c.phase
  | _ => none

/-- The `x` field of a shape record. -/
def shapeX : Shape → ℚ
  | Shape.circle c => c.x
  | Shape.triangle tr => tr.x
  | Shape.rect rc => rc.x

/-! ### Canvas 2D command trace -/

/-- A color argument to a canvas command: a hex/name literal or an
`rgba(...)` value produced by `hexToRgba`. -/
inductive Color where
  | lit (s : String)
  | rgba (c : Rgba)
deriving DecidableEq, Repr

/-- A canvas gradient (`createLinearGradient` / `createRadialGradient`)
with its `addColorStop` list. -/
inductive Gradient where
  | linear (x0 y0 x1 y1 : ℚ) (stops : List (ℚ × Color))
  | radial (x0 y0 r0 x1 y1 r1 : ℚ) (stops : List (ℚ × Color))
deriving DecidableEq, Repr

/-- One issued Canvas 2D command. -/
inductive DrawOp where
  | clearRect (x y w h : ℚ)
  | fillRect (x y w h : ℚ)
  | strokeRect (x y w h : ℚ)
  | setFillColor (c : Color)
  | setFillGradient (g : Gradient)
  | setStrokeColor (c : Color)
  | setLineWidth (w : ℚ)
  | setGlobalAlpha (a : ℚ)
  | setComposite (mode : String)
  | setLineJoin (s : String)
  | setLineCap (s : String)
  | save
  | restore
  | translate (x y : ℚ)
  | rotate (a : ℚ)
  | scale (sx sy : ℚ)
  | beginPath
  | moveTo (x y : ℚ)
  | lineTo (x y : ℚ)
  | quadraticCurveTo (cx cy x y : ℚ)
  | rectPath (x y w h : ℚ)
  | arc (x y r a0 a1 : ℚ)
  | closePath
  | fill
  | stroke
deriving DecidableEq, Repr

/-! ### Scene generators -/

/-- The sketch's `buildWavyLine(cx, cy, scale)`: picks a segment count
`segs = Math.floor(rand(3, 8))`, a length and a direction, and emits
`segs + 1` jittered points. Random draws are taken from `us` in evaluation
order: `us 0` for `segs`, `us 1` for the length, `us 2` for the angle, then
two per point. -/
def buildWavyLine (m : MathEnv) (width height : ℚ) (us : ℕ → ℚ)
    (cx cy scale : ℚ) : List Point :=
  let segs : ℤ := (rand 3 8 (us 0)).floor
  let length := rand 120 (min width height * 0.8) (us 1) * scale
  let angle := rand 0 (TAU m) (us 2)
  (List.range (segs.toNat + 1)).map fun (i : ℕ) =>
    let t : ℚ := (i : ℚ) / (segs : ℚ)
    { x := cx + m.cos angle * (t - 0.5) * length + rand (-40) 40 (us (3 + 2 * i))
      y := cy + m.sin angle * (t - 0.5) * length + rand (-40) 40 (us (4 + 2 * i)) }

/-- Number of random draws `buildWavyLine` consumes from its stream. -/
def wavyConsumed (us : ℕ → ℚ) : ℕ := 3 + 2 * ((rand 3 8 (us 0)).floor.toNat + 1)

/-- The sketch's `makeCircle` (without overrides; `opts` defaults to `{}`). -/
def makeCircle (m : MathEnv) (width height : ℚ) (us : ℕ → ℚ) : Circle :=
  { x := rand (0.1 * width) (0.9 * width) (us 0)
    y := rand (0.12 * height) (0.88 * height) (us 1)
    r := rand 18 120 (us 2)
    fill := pickPalette (us 3)
    stroke := none
    strokeWidth := rand 0 6 (us 4)
    vx := rand (-6) 6 (us 5) / 200
    vy := rand (-6) 6 (us 6) / 200
    wobble := rand 0.2 1.2 (us 7)
    phase := rand 0 (TAU m) (us 8) }

/-- The sketch's `makeTriangle` — it sets no `phase` field. -/
def makeTriangle (m : MathEnv) (width height : ℚ) (us : ℕ → ℚ) : Triangle :=
  { x := rand (0.12 * width) (0.88 * width) (us 0)
    y := rand (0.12 * height) (0.88 * height) (us 1)
    size := rand 40 220 (us 2)
    rotation := rand 0 (TAU m) (us 3)
    rotationSpeed := rand (-0.01) 0.01 (us 4)
    fill := pickPalette (us 5)
    stroke := some "#000000"
    strokeWidth := rand 1 4 (us 6)
    skew := rand (-0.3) 0.3 (us 7) }

/-- The sketch's `makeRect`. -/
def makeRect (m : MathEnv) (width height : ℚ) (us : ℕ → ℚ) : Rect :=
  { x := rand (0.05 * width) (0.95 * width) (us 0)
    y := rand (0.05 * height) (0.95 * height) (us 1)
    w := rand 30 240 (us 2)
    h := rand 20 160 (us 3)
    rotation := rand 0 (TAU m) (us 4)
    rotationSpeed := rand (-0.008) 0.008 (us 5)
    fill := pickPalette (us 6)
    stroke := some "#000000"
    strokeWidth := rand 1 4 (us 7)}

/-- The sketch's `makeStroke`: the wavy-line arguments consume `us 0..2`,
`buildWavyLine` consumes the next `wavyConsumed` draws, and the remaining
fields continue from there. -/
def makeStroke (m : MathEnv) (width height : ℚ) (us : ℕ → ℚ) : Stroke :=
  let cx := rand 100 (width - 100) (us 0)
  let cy := rand 100 (height - 100) (us 1)
  let scale := rand 0.3 1.5 (us 2)
  let rest : ℕ → ℚ := fun i => us (3 + i)
  let k := wavyConsumed rest
  { points := buildWavyLine m width height rest cx cy scale
    color := pickPalette (us (3 + k))
    width := rand 1.2 6 (us (4 + k))
    drift := rand 0.001 0.006 (us (5 + k))
    phase := rand 0 (TAU m) (us (6 + k)) }

/-! ### Renderer: per-primitive draw routines -/

/-- The pulsing radius computed in `drawCircle`:
`s.r * (1 + 0.06 * Math.sin(t * 0.9 + s.phase))`. -/
def pulseRadius (m : MathEnv) (t r phase : ℚ) : ℚ :=
  r * (1 + 0.06 * m.sin (t * 0.9 + phase))

/-- The sketch's `drawCircle(s, t)`: applies the velocity drift, wraps the
position toroidally (each test reads the position after the drift, and the
second test on an axis reads the result of the first), then draws the glow
gradient, the crisp inner circle, and the optional stroke. -/
def drawCircle (m : MathEnv) (width height : ℚ) (s : Circle) (t : ℚ) :
    Circle × List DrawOp :=
  let wobble := m.sin (s.phase + t * s.wobble) * 0.08
  let x0 := s.x + s.vx
  let y0 := s.y + s.vy
  let x1 := if x0 < -s.r then width + s.r else x0
  let x2 := if x1 > width + s.r then -s.r else x1
  let y1 := if y0 < -s.r then height + s.r else y0
  let y2 := if y1 > height + s.r then -s.r else y1
  let rad := pulseRadius m t s.r s.phase
  ({ s with x := x2, y := y2 },
   [DrawOp.save, DrawOp.translate x2 y2,
    DrawOp.setComposite "lighter",
    DrawOp.setFillGradient (Gradient.radial 0 0 (rad * 0.1) 0 0 (rad * 1.1)
      [(0, Color.lit s.fill), (1, Color.rgba (hexToRgba s.fill 0.05))]),
    DrawOp.beginPath, DrawOp.arc 0 0 rad 0 (TAU m), DrawOp.fill,
    DrawOp.setComposite "source-over",
    DrawOp.beginPath, DrawOp.setFillColor (Color.lit s.fill),
    DrawOp.arc 0 0 (rad * 0.6 * (1 + wobble * 0.6)) 0 (TAU m), DrawOp.fill] ++
   (if s.strokeWidth > 0 then
     [DrawOp.setLineWidth s.strokeWidth,
      DrawOp.setStrokeColor (Color.rgba (hexToRgba "#000000" 0.12)),
      DrawOp.stroke]
    else []) ++
   [DrawOp.restore])

/-- The sketch's `drawTriangle(s, t)`: advances the rotation by
`(s.rotation || 0) + s.rotationSpeed` and draws the skewed triangle with a
linear-gradient fill and optional stroke. Position is not modified here. -/
def drawTriangle (m : MathEnv) (s : Triangle) (t : ℚ) : Triangle × List DrawOp :=
  let rotation := jsOrZero (JSNum.num s.rotation) + s.rotationSpeed
  let size := s.size
  let skew := jsOrZero (JSNum.num s.skew)
  ({ s with rotation := rotation },
   [DrawOp.save, DrawOp.translate s.x s.y, DrawOp.rotate rotation,
    DrawOp.beginPath,
    DrawOp.moveTo 0 (-size * 0.6),
    DrawOp.lineTo (size * 0.6 + skew * size) (size * 0.4),
    DrawOp.lineTo (-size * 0.6 + skew * size) (size * 0.4),
    DrawOp.closePath,
    DrawOp.setFillGradient (Gradient.linear (-size) (-size) size size
      [(0, Color.lit s.fill), (1, Color.rgba (hexToRgba s.fill 0.6))]),
    DrawOp.fill] ++
   (match s.stroke with
    | some sc => [DrawOp.setLineWidth s.strokeWidth,
                  DrawOp.setStrokeColor (Color.lit sc), DrawOp.stroke]
    | none => []) ++
   [DrawOp.restore])

/-- The sketch's `drawRect(s, t)`: advances the rotation and draws the
gradient-filled rectangle with optional stroke. Position is not modified. -/
def drawRect (m : MathEnv) (s : Rect) (t : ℚ) : Rect × List DrawOp :=
  let rotation := jsOrZero (JSNum.num s.rotation) + s.rotationSpeed
  ({ s with rotation := rotation },
   [DrawOp.save, DrawOp.translate s.x s.y, DrawOp.rotate rotation,
    DrawOp.beginPath, DrawOp.rectPath (-s.w / 2) (-s.h / 2) s.w s.h,
    DrawOp.setFillGradient (Gradient.linear (-s.w / 2) (-s.h / 2) (s.w / 2) (s.h / 2)
      [(0, Color.lit s.fill), (1, Color.rgba (hexToRgba s.fill 0.6))]),
    DrawOp.fill] ++
   (match s.stroke with
    | some sc => [DrawOp.setLineWidth s.strokeWidth,
                  DrawOp.setStrokeColor (Color.lit sc), DrawOp.stroke]
    | none => []) ++
   [DrawOp.restore])

/-- The sketch's `drawStroke(st, t)`: pure with respect to the record — it
only reads `st.points` and applies a time-varying offset at draw time. -/
def drawStroke (m : MathEnv) (st : Stroke) (t : ℚ) : List DrawOp :=
  let dx := m.sin (t * st.drift + st.phase) * 6
  let dy := m.cos (t * st.drift + st.phase) * 6
  let p0 := st.points.getD 0 { x := 0, y := 0 }
  [DrawOp.save, DrawOp.setLineJoin "round", DrawOp.setLineCap "round",
   DrawOp.beginPath, DrawOp.moveTo (p0.x + dx) (p0.y + dy)] ++
  (st.points.drop 1).map (fun p =>
    DrawOp.quadraticCurveTo (p.x - 10 + dx) (p.y - 10 + dy) (p.x + dx) (p.y + dy)) ++
  [DrawOp.setStrokeColor (Color.lit st.color), DrawOp.setLineWidth st.width,
   DrawOp.setGlobalAlpha 0.9, DrawOp.stroke, DrawOp.restore]

/-- The inline child dispatch inside `drawGroup`: a nested translate-only
transform and a simplified fill (plus optional flat stroke) per child kind.
The child record itself is never written. -/
def drawChild (m : MathEnv) (t : ℚ) (c : GChild) : List DrawOp :=
  [DrawOp.save, DrawOp.translate c.x c.y] ++
  (if c.kind = "circle" then
    [DrawOp.beginPath, DrawOp.setFillColor (Color.lit c.fill),
     DrawOp.arc 0 0 (c.r * (1 + 0.08 * m.sin (t * 0.9 + (c.x + c.y) * 0.01))) 0 (TAU m),
     DrawOp.fill] ++
    (match c.stroke with
     | some sc => [DrawOp.setLineWidth c.strokeWidth,
                   DrawOp.setStrokeColor (Color.lit sc), DrawOp.stroke]
     | none => [])
   else if c.kind = "rect" then
    [DrawOp.setFillColor (Color.lit c.fill),
     DrawOp.fillRect (-c.w / 2) (-c.h / 2) c.w c.h] ++
    (match c.stroke with
     | some sc => [DrawOp.setLineWidth c.strokeWidth,
                   DrawOp.setStrokeColor (Color.lit sc),
                   DrawOp.strokeRect (-c.w / 2) (-c.h / 2) c.w c.h]
     | none => [])
   else if c.kind = "triangle" then
    [DrawOp.beginPath, DrawOp.moveTo 0 (-c.r), DrawOp.lineTo c.r c.r,
     DrawOp.lineTo (-c.r) c.r, DrawOp.closePath,
     DrawOp.setFillColor (Color.lit c.fill), DrawOp.fill] ++
    (match c.stroke with
     | some sc => [DrawOp.setLineWidth c.strokeWidth,
                   DrawOp.setStrokeColor (Color.lit sc), DrawOp.stroke]
     | none => [])
   else []) ++
  [DrawOp.restore]

/-- The sketch's `drawGroup(g, t)`: the only record write is
`g.rotation += g.speed` (performed before the transform is set up); the
children are iterated read-only under the group transform. -/
def drawGroup (m : MathEnv) (g : Group) (t : ℚ) : Group × List DrawOp :=
  let rotation := g.rotation + g.speed
  ({ g with rotation := rotation },
   [DrawOp.save, DrawOp.translate g.x g.y,
    DrawOp.rotate (rotation + m.sin (t * 0.2) * 0.03),
    DrawOp.scale g.scale g.scale] ++
   (g.children.map (drawChild m t)).flatten ++
   [DrawOp.restore])

/-! ### Background, ring and overlay passes of the frame -/

/-- The hatch step `Math.max(20, Math.min(60, Math.floor((width + height) / 60)))`. -/
def hatchStep (width height : ℚ) : ℚ :=
  max 20 (min 60 (((width + height) / 60).floor : ℚ))

/-- Iteration count of `for (let x = -height; x < width; x += step)`:
the smallest `n` with `-height + n * step ≥ width`. -/
def hatchCount (width height : ℚ) : ℕ :=
  ((width + height) / hatchStep width height).ceil.toNat

/-- The sketch's `drawBackgroundTexture()`: the soft wash gradient fill and
the light diagonal hatch loop. -/
def drawBackgroundTexture (width height : ℚ) : List DrawOp :=
  [DrawOp.setFillGradient (Gradient.linear 0 0 width height
     [(0, Color.lit "#FFF9F2"), (1, Color.lit "#F0F7FF")]),
   DrawOp.fillRect 0 0 width height,
   DrawOp.save, DrawOp.setGlobalAlpha 0.04,
   DrawOp.setStrokeColor (Color.lit "#000"), DrawOp.setLineWidth 1] ++
  ((List.range (hatchCount width height)).map fun (i : ℕ) =>
    let x := -height + (i : ℚ) * hatchStep width height
    [DrawOp.beginPath, DrawOp.moveTo x 0, DrawOp.lineTo (x + height) height,
     DrawOp.stroke]).flatten ++
  [DrawOp.restore]

/-- The deep-background rotating translucent ring block of `frame`. -/
def ringOps (m : MathEnv) (width height : ℚ) (time : ℚ) : List DrawOp :=
  [DrawOp.save, DrawOp.setGlobalAlpha 0.12,
   DrawOp.translate (width * 0.5) (height * 0.45),
   DrawOp.rotate (m.sin (time * 0.1) * 0.4),
   DrawOp.beginPath,
   DrawOp.arc 0 0 (min width height * 0.28) 0 (TAU m),
   DrawOp.setLineWidth (min width height * 0.1),
   DrawOp.setStrokeColor (Color.lit "#FFC857"),
   DrawOp.stroke, DrawOp.restore]

/-- The small overlay accent block of `frame` (black circle, white dot). -/
def accentOps (m : MathEnv) (width height : ℚ) (time : ℚ) : List DrawOp :=
  [DrawOp.save, DrawOp.setGlobalAlpha 0.95,
   DrawOp.translate (width * 0.85) (height * 0.18),
   DrawOp.rotate (m.sin (time * 0.6) * 0.6),
   DrawOp.beginPath, DrawOp.setFillColor (Color.lit "#000"),
   DrawOp.arc 0 0 22 0 (TAU m), DrawOp.fill,
   DrawOp.beginPath, DrawOp.setFillColor (Color.lit "#fff"),
   DrawOp.arc (-6) (-6) 6 0 (TAU m), DrawOp.fill,
   DrawOp.restore]

/-- The signature-mark block of `frame` (the abstract "K"). -/
def signatureOps (m : MathEnv) (width height : ℚ) (time : ℚ) : List DrawOp :=
  [DrawOp.save,
   DrawOp.translate (width * 0.06) (height * 0.92),
   DrawOp.rotate (-0.12 + m.sin (time * 0.4) * 0.02),
   DrawOp.setGlobalAlpha 0.9,
   DrawOp.setFillColor (Color.lit "#3A7CA5"),
   DrawOp.fillRect 0 0 10 36,
   DrawOp.beginPath,
   DrawOp.moveTo 8 18, DrawOp.lineTo 34 0, DrawOp.lineTo 34 6,
   DrawOp.lineTo 12 22, DrawOp.lineTo 34 36, DrawOp.lineTo 34 42,
   DrawOp.closePath, DrawOp.fill,
   DrawOp.restore]

/-! ### The per-shape pass of the frame loop -/

/-- Parallax factor `1 + ((s.y / height) - 0.5) * 0.08`. -/
def parallax (height y : ℚ) : ℚ := 1 + (y / height - 0.5) * 0.08

/-- The triangle branch's drift increment
`Math.sin(time * 0.18 + s.phase || 0) * 0.01 * par`. By JS precedence the
argument of `sin` is `(time * 0.18 + s.phase) || 0`, and `s.phase` is the
possibly-missing field. -/
def triangleDrift (m : MathEnv) (time : ℚ) (ph : Option ℚ) (par : ℚ) : ℚ :=
  m.sin (jsOrZero (jsAdd (JSNum.num (time * 0.18)) (jsOfField ph))) * 0.01 * par

/-- One iteration of the shape loop in `frame`: the parallax-scaled
oscillation per type, then the dispatch to the type's draw routine. In the
circle branch the second increment reads the already-updated `s.x`. -/
def stepShape (m : MathEnv) (width height time : ℚ) : Shape → Shape × List DrawOp
  | Shape.circle c =>
      let par := parallax height c.y
      let x1 := c.x + m.sin (time * 0.2 + (c.x + c.y) * 0.001) * 0.02 * par
      let y1 := c.y + m.cos (time * 0.14 + (x1 - c.y) * 0.001) * 0.02 * par
      let res := drawCircle m width height { c with x := x1, y := y1 } time
      (Shape.circle res.1, res.2)
  | Shape.triangle tr =>
      let par := parallax height tr.y
      let x1 := tr.x + triangleDrift m time (shapePhase (Shape.triangle tr)) par
      let res := drawTriangle m { tr with x := x1 } time
      (Shape.triangle res.1, res.2)
  | Shape.rect rc =>
      let res := drawRect m rc time
      (Shape.rect res.1, res.2)

/-- Ascending order on the comparator key `(a.y || 0) - (b.y || 0)`. -/
def shapeLE (a b : Shape) : Prop := shapeY a ≤ shapeY b

instance : DecidableRel shapeLE :=
  fun a b => inferInstanceAs (Decidable (shapeY a ≤ shapeY b))

instance : IsTotal Shape shapeLE := ⟨fun a b => le_total (shapeY a) (shapeY b)⟩

instance : IsTrans Shape shapeLE := ⟨fun _ _ _ h1 h2 => le_trans h1 h2⟩

/-- The in-place `shapes.sort((a, b) => (a.y || 0) - (b.y || 0))`:
JS `Array.prototype.sort` is stable, modelled by stable insertion sort. -/
def sortShapes (l : List Shape) : List Shape := List.insertionSort shapeLE l

/-- Runs a record-mutating draw routine over a list left to right (as the
`for...of` loops do), returning the updated records in order and the
concatenated command trace. -/
def drawEach {α : Type} (f : α → α × List DrawOp) : List α → List α × List DrawOp
  | [] => ([], [])
  | a :: as =>
    let r := f a
    let rest := drawEach f as
    (r.1 :: rest.1, r.2 ++ rest.2)

/-- The mutable Scene: the `shapes`, `strokes` and `groups` arrays. -/
structure SceneState where
  shapes : List Shape
  strokes : List Stroke
  groups : List Group
deriving DecidableEq, Repr

/-- The full redraw performed by a RUNNING tick of `frame`, in source
order: clear, background wash and hatch, rotating ring, groups, strokes,
shapes (sorted in place by current `y`, then stepped and drawn), accent
overlay, signature mark. Returns the mutated scene and the command trace. -/
def sceneDraw (m : MathEnv) (width height : ℚ) (sc : SceneState) (time : ℚ) :
    SceneState × List DrawOp :=
  let gr := drawEach (fun g => drawGroup m g time) sc.groups
  let strokeTrace := (sc.strokes.map (fun s => drawStroke m s time)).flatten
  let sh := drawEach (stepShape m width height time) (sortShapes sc.shapes)
  ({ shapes := sh.1, strokes := sc.strokes, groups := gr.1 },
   [DrawOp.clearRect 0 0 width height] ++
   drawBackgroundTexture width height ++
   ringOps m width height time ++
   gr.2 ++ strokeTrace ++ sh.2 ++
   accentOps m width height time ++
   signatureOps m width height time)

/-! ### Frame scheduler and lifecycle API -/

/-- The module-level animation state: `running`, `last`, `time`, plus the
scene the frame loop mutates. -/
structure PainterState where
  running : Bool
  last : ℚ
  time : ℚ
  scene : SceneState
deriving DecidableEq, Repr

/-- One invocation of `frame(now)`. Returns the new state, the issued draw
commands, and whether `requestAnimationFrame(frame)` was called again —
note both branches re-arm: the not-running branch still schedules the next
tick before returning. -/
def frame (m : MathEnv) (width height : ℚ) (ps : PainterState) (now : ℚ) :
    PainterState × List DrawOp × Bool :=
  let dt := min 40 (now - ps.last)
  let ps1 : PainterState := { ps with last := now }
  if ps1.running = false then (ps1, [], true)
  else
    let time := ps1.time + dt * 0.001
    let res := sceneDraw m width height ps1.scene time
    ({ ps1 with time := time, scene := res.1 }, res.2, true)

/-- `pause()`: clears the running flag; nothing else. -/
def pause (ps : PainterState) : PainterState := { ps with running := false }

/-- `resume()`: sets the running flag and resets `last` to `performance.now()`
(the `now` argument). -/
def resume (now : ℚ) (ps : PainterState) : PainterState :=
  { ps with running := true, last := now }

/-- `toggle()`: flips the running flag and resets `last`, in both directions. -/
def toggle (now : ℚ) (ps : PainterState) : PainterState :=
  { ps with running := !ps.running, last := now }

/-- Host-visible resources owned by the sketch besides the painter state. -/
structure HostState where
  painter : PainterState
  resizeListenerAttached : Bool
  canvasAttached : Bool
  apiDefined : Bool
deriving DecidableEq, Repr

/-- `destroy()`: clears the running flag, removes the resize listener and
the canvas, and deletes the public API handle. Nothing here (or anywhere)
cancels the pending `requestAnimationFrame` callback, and `frame` re-arms
itself even when `running` is false. -/
def destroy (hs : HostState) : HostState :=
  { painter := { hs.painter with running := false },
    resizeListenerAttached := false,
    canvasAttached := false,
    apiDefined := false }

/-! ### Sample records for evaluating the model on closed inputs -/

/-- A sample in-range circle record. -/
def circle0 : Circle :=
  { x := 100, y := 50, r := 20, fill := "#F23B5A", stroke := none,
    strokeWidth := 2, vx := 1/50, vy := -1/100, wobble := 1/2, phase := 1 }

/-- A circle whose center has left the padded viewport on the left by
`1/100` before the frame update, carrying an in-range rightward drift
velocity `vx = 1/50`. -/
def circleLeftEdge : Circle :=
  { x := -20 - 1/100, y := 300, r := 20, fill := "#FFC857", stroke := none,
    strokeWidth := 0, vx := 1/50, vy := 0, wobble := 1, phase := 0 }

/-- A circle at `x = width + r + 1` for `width = 800`, `r = 20`. -/
def circleRightEdge : Circle :=
  { x := 821, y := 300, r := 20, fill := "#8BD3DD", stroke := none,
    strokeWidth := 0, vx := 1/50, vy := 0, wobble := 1, phase := 0 }

/-- A sample triangle record. -/
def triangle0 : Triangle :=
  { x := 200, y := 150, size := 80, rotation := 1, rotationSpeed := 1/100,
    fill := "#3A7CA5", stroke := some "#000000", strokeWidth := 2, skew := 1/10 }

/-- A sample rectangle record. -/
def rect0 : Rect :=
  { x := 400, y := 90, w := 60, h := 40, rotation := 0, rotationSpeed := 1/200,
    fill := "#6F2DA8", stroke := some "#000000", strokeWidth := 1 }

/-- A sample stroke record. -/
def stroke0 : Stroke :=
  { points := [{ x := 10, y := 20 }, { x := 30, y := 25 }, { x := 50, y := 18 },
               { x := 70, y := 22 }],
    color := "#FF7AB6", width := 3, drift := 1/500, phase := 2 }

/-- A sample group with one child of each kind. -/
def group0 : Group :=
  { x := 300, y := 200, rotation := 1/2, speed := 1/500, scale := 1,
    children := [
      { kind := "circle", x := 40, y := 0, r := 12, w := 20, h := 15,
        fill := "#F23B5A", stroke := some "#000", strokeWidth := 1 },
      { kind := "rect", x := -30, y := 10, r := 10, w := 24, h := 16,
        fill := "#FFC857", stroke := none, strokeWidth := 1 },
      { kind := "triangle", x := 0, y := -35, r := 14, w := 20, h := 15,
        fill := "#FFFFFF", stroke := none, strokeWidth := 1 }] }

/-- A sample scene holding one record of every kind. -/
def scene0 : SceneState :=
  { shapes := [Shape.circle circle0, Shape.triangle triangle0, Shape.rect rect0],
    strokes := [stroke0],
    groups := [group0] }

/-- A sample running painter state. -/
def painter0 : PainterState :=
  { running := true, last := 0, time := 0, scene := scene0 }

/-- A sample host state wrapping `painter0`. -/
def host0 : HostState :=
  { painter := painter0, resizeListenerAttached := true,
    canvasAttached := true, apiDefined := true }

/-! ## Theorems -/

/-- C5: `hexToRgba` expands a 3-hex-digit token by digit-doubling and
applies the given opacity as the alpha channel: `hexToRgba "#FFFFFF" 1` is
full-opacity white (`r = g = b = 255`, alpha `1`) and `hexToRgba "#000" 0.5`
is 50%-opacity black (`r = g = b = 0`, alpha `1/2`). -/
theorem hexToRgba_white_black :
    hexToRgba "#FFFFFF" 1 = { r := 255, g := 255, b := 255, alpha := 1 } ∧
    hexToRgba "#000" 0.5 = { r := 0, g := 0, b := 0, alpha := 0.5 } := by
  constructor <;> rfl

/-- C8: from every starting state, `pause` twice in a row leaves the state
PAUSED, and `toggle` twice in a row returns the running flag to its
original value. -/
theorem pause_idempotent_toggle_involutive (ps : PainterState) (n1 n2 : ℚ) :
    (pause (pause ps)).running = false ∧
    (toggle n2 (toggle n1 ps)).running = ps.running := by
  simp [pause, toggle]

/-- C9: for every group and frame, `drawGroup` advances only the group's
rotation (by `speed`); `x`, `y`, `scale`, `speed` and the entire children
list — hence every child's local coordinates, `kind`, `r`, `w`, `h`,
`fill`, `stroke` and `strokeWidth` — are unchanged. -/
theorem drawGroup_mutates_only_rotation (m : MathEnv) (g : Group) (t : ℚ) :
    (drawGroup m g t).1.rotation = g.rotation + g.speed ∧
    (drawGroup m g t).1.x = g.x ∧
    (drawGroup m g t).1.y = g.y ∧
    (drawGroup m g t).1.scale = g.scale ∧
    (drawGroup m g t).1.speed = g.speed ∧
    (drawGroup m g t).1.children = g.children := by
  simp [drawGroup]

/-- C10: the pulsing radius computed by `drawCircle` equals
`r * (1 + 0.06 * sin(0.9 * t + phase))` and is a pure function of `t` and
the record's `r` and `phase` fields alone: any two circle records agreeing
on those fields yield the same value, with no dependence on other state. -/
theorem pulseRadius_deterministic (m : MathEnv) (t : ℚ) (c1 c2 : Circle)
    (hr : c1.r = c2.r) (hp : c1.phase = c2.phase) :
    pulseRadius m t c1.r c1.phase =
      c1.r * (1 + 0.06 * m.sin (0.9 * t + c1.phase)) ∧
    pulseRadius m t c1.r c1.phase = pulseRadius m t c2.r c2.phase := by
  constructor
  · simp only [pulseRadius]
    ring_nf
  · rw [hr, hp]

/-- C10 witness: evaluated at `t = 3` on `circle0` and a copy of `circle0`
moved to a different position (same `r` and `phase`). -/
theorem pulseRadius_deterministic_witness :
    circle0.r = ({ circle0 with x := 7 } : Circle).r ∧
    circle0.phase = ({ circle0 with x := 7 } : Circle).phase ∧
    (pulseRadius mathEnv0 3 circle0.r circle0.phase =
       circle0.r * (1 + 0.06 * mathEnv0.sin (0.9 * 3 + circle0.phase)) ∧
     pulseRadius mathEnv0 3 circle0.r circle0.phase =
       pulseRadius mathEnv0 3 ({ circle0 with x := 7 } : Circle).r
         ({ circle0 with x := 7 } : Circle).phase) :=
  ⟨rfl, rfl, pulseRadius_deterministic mathEnv0 3 circle0 { circle0 with x := 7 } rfl rfl⟩

/-- C2: evidence of the code bug. `destroy()` clears the running flag,
releases the listener, canvas and API handle, and every subsequent tick
indeed issues no draw command and leaves the whole scene untouched — but
the tick's re-arm component is `true`: `frame` unconditionally calls
`requestAnimationFrame(frame)` again even when not running, and `destroy`
cancels nothing, so a recurring callback remains armed forever. -/
theorem destroy_tick_noop_but_rearms (m : MathEnv) (width height : ℚ)
    (hs : HostState) (now : ℚ) :
    (destroy hs).painter.running = false ∧
    (destroy hs).resizeListenerAttached = false ∧
    (frame m width height (destroy hs).painter now).2.1 = [] ∧
    (frame m width height (destroy hs).painter now).1.scene = hs.painter.scene ∧
    (frame m width height (destroy hs).painter now).2.2 = true := by
  simp [destroy, frame]

/-- C6: the trace of one RUNNING redraw is exactly, in order: clear,
background wash with the diagonal hatch, the rotating translucent ring,
all groups, all strokes, all shapes sorted ascending by their current `y`
(the sort is applied to this frame's `shapes` array, not a cached order),
then the accent motif and the signature mark; the sorted list is a sorted
permutation of the current shapes. -/
theorem frame_draw_order (m : MathEnv) (width height : ℚ) (sc : SceneState)
    (time : ℚ) :
    (sceneDraw m width height sc time).2 =
      [DrawOp.clearRect 0 0 width height] ++
      drawBackgroundTexture width height ++
      ringOps m width height time ++
      (drawEach (fun g => drawGroup m g time) sc.groups).2 ++
      (sc.strokes.map (fun s => drawStroke m s time)).flatten ++
      (drawEach (stepShape m width height time) (sortShapes sc.shapes)).2 ++
      accentOps m width height time ++
      signatureOps m width height time ∧
    List.Sorted shapeLE (sortShapes sc.shapes) ∧
    (sortShapes sc.shapes).Perm sc.shapes :=
  ⟨rfl, List.sorted_insertionSort shapeLE sc.shapes,
    List.perm_insertionSort shapeLE sc.shapes⟩

/-- C7: on each tick `dt = min(40, now - last)` and `last` becomes `now`
in both states; only when RUNNING is `time` advanced by `dt * 0.001` and
the full redraw emitted; when PAUSED the tick draws nothing, leaves `time`
and every scene record untouched, and still re-arms the next tick;
`resume` resets `last` to the current time and sets the running flag. -/
theorem frame_scheduler_tick (m : MathEnv) (width height : ℚ)
    (ps : PainterState) (now : ℚ) :
    (frame m width height ps now).1.last = now ∧
    (ps.running = true →
      (frame m width height ps now).1.time =
        ps.time + min 40 (now - ps.last) * 0.001 ∧
      (frame m width height ps now).2.1 =
        (sceneDraw m width height ps.scene
          (ps.time + min 40 (now - ps.last) * 0.001)).2) ∧
    (ps.running = false →
      (frame m width height ps now).2.1 = [] ∧
      (frame m width height ps now).1.time = ps.time ∧
      (frame m width height ps now).1.scene = ps.scene ∧
      (frame m width height ps now).2.2 = true) ∧
    (resume now ps).last = now ∧
    (resume now ps).running = true := by
  cases hb : ps.running <;> simp [frame, resume, hb]

/-- C7 witness: one running tick and one paused tick at `now = 16` on the
sample state, plus the `resume` reset. -/
theorem frame_scheduler_tick_witness :
    painter0.running = true ∧
    (frame mathEnv0 800 600 painter0 16).1.last = 16 ∧
    (frame mathEnv0 800 600 painter0 16).1.time =
      painter0.time + min 40 (16 - painter0.last) * 0.001 ∧
    (pause painter0).running = false ∧
    (frame mathEnv0 800 600 (pause painter0) 16).2.1 = [] ∧
    (frame mathEnv0 800 600 (pause painter0) 16).2.2 = true ∧
    (resume 16 painter0).last = 16 := by
  have hrun := frame_scheduler_tick mathEnv0 800 600 painter0 16
  have hpaused := frame_scheduler_tick mathEnv0 800 600 (pause painter0) 16
  exact ⟨rfl, hrun.1, (hrun.2.1 rfl).1, rfl, (hpaused.2.2.1 rfl).1,
    (hpaused.2.2.1 rfl).2.2.2, hrun.2.2.2.1⟩

/-- C3: every `makeStroke` record has `segs + 1` points where
`segs = ⌊rand(3,8)⌋` lies in `[3,8]` (in fact in `[3,7]`), so the point
count lies in `[4,9]`; and no frame tick ever replaces or resizes the
stroke records — the strokes array is unchanged by `frame`. The segment
draw is `us 3`, the first value `buildWavyLine` consumes. -/
theorem makeStroke_point_count (m : MathEnv) (width height : ℚ) (us : ℕ → ℚ)
    (h0 : 0 ≤ us 3) (h1 : us 3 < 1) (ps : PainterState) (now : ℚ) :
    3 ≤ (rand 3 8 (us 3)).floor ∧
    (rand 3 8 (us 3)).floor ≤ 8 ∧
    (makeStroke m width height us).points.length =
      (rand 3 8 (us 3)).floor.toNat + 1 ∧
    4 ≤ (makeStroke m width height us).points.length ∧
    (makeStroke m width height us).points.length ≤ 9 ∧
    (frame m width height ps now).1.scene.strokes = ps.scene.strokes := by
  have hfl3 : (3 : ℤ) ≤ (rand 3 8 (us 3)).floor := by
    apply Rat.le_floor.mpr
    simp only [rand]
    push_cast
    nlinarith
  have hfl8 : (rand 3 8 (us 3)).floor < 8 := by
    by_contra hcon
    push_neg at hcon
    have h8 : ((8 : ℤ) : ℚ) ≤ rand 3 8 (us 3) := Rat.le_floor.mp hcon
    simp only [rand] at h8
    push_cast at h8
    nlinarith
  have hlen : (makeStroke m width height us).points.length =
      (rand 3 8 (us 3)).floor.toNat + 1 := by
    simp [makeStroke, buildWavyLine]
  refine ⟨hfl3, by omega, hlen, ?_, ?_, ?_⟩
  · rw [hlen]; omega
  · rw [hlen]; omega
  · cases hb : ps.running <;> simp [frame, sceneDraw, hb]

/-- C3 witness: the all-zero random stream gives `segs = 3`, hence 4
points, and a tick on the sample state keeps the strokes array. -/
theorem makeStroke_point_count_witness :
    ((0 : ℚ) ≤ 0 ∧ (0 : ℚ) < 1) ∧
    (makeStroke mathEnv0 800 600 (fun _ => 0)).points.length =
      (rand 3 8 0).floor.toNat + 1 ∧
    4 ≤ (makeStroke mathEnv0 800 600 (fun _ => 0)).points.length ∧
    (makeStroke mathEnv0 800 600 (fun _ => 0)).points.length ≤ 9 ∧
    (frame mathEnv0 800 600 painter0 16).1.scene.strokes =
      painter0.scene.strokes := by
  have h := makeStroke_point_count mathEnv0 800 600 (fun _ => 0)
    (le_refl 0) (by norm_num) painter0 16
  exact ⟨⟨le_refl 0, by norm_num⟩, h.2.2.1, h.2.2.2.1, h.2.2.2.2.1, h.2.2.2.2.2⟩

/-- Helper: one shape step maps a triangle to a triangle that keeps `x`
and `y` (the drift increment is `sin 0 * 0.01 * par = 0`) and only
advances the rotation. -/
theorem stepShape_triangle (m : MathEnv) (hsin : m.sin 0 = 0)
    (width height time : ℚ) (tr : Triangle) :
    (stepShape m width height time (Shape.triangle tr)).1 =
      Shape.triangle { tr with
        rotation := jsOrZero (JSNum.num tr.rotation) + tr.rotationSpeed } := by
  simp [stepShape, triangleDrift, drawTriangle, shapePhase, jsAdd, jsOfField,
    jsOrZero, hsin]

/-- Helper: any sequence of shape steps keeps a triangle's `x` and `y`. -/
theorem foldl_stepShape_triangle (m : MathEnv) (hsin : m.sin 0 = 0)
    (width height : ℚ) :
    ∀ (ts : List ℚ) (tr : Triangle),
      ∃ tr2 : Triangle,
        ts.foldl (fun s t2 => (stepShape m width height t2 s).1)
          (Shape.triangle tr) = Shape.triangle tr2 ∧
        tr2.x = tr.x ∧ tr2.y = tr.y
  | [], tr => ⟨tr, rfl, rfl, rfl⟩
  | t :: ts, tr => by
    rw [List.foldl_cons, stepShape_triangle m hsin width height t tr]
    obtain ⟨tr2, heq, hx, hy⟩ := foldl_stepShape_triangle m hsin width height ts
      { tr with rotation := jsOrZero (JSNum.num tr.rotation) + tr.rotationSpeed }
    exact ⟨tr2, heq, hx, hy⟩

/-- C4: `makeTriangle` sets no `phase` field, so the frame loop's triangle
drift `Math.sin(time * 0.18 + s.phase || 0) * 0.01 * par` evaluates to
exactly `0` every frame (the `sin` argument is
`(time * 0.18 + undefined) || 0 = NaN || 0 = 0`), and a triangle's `x` and
`y` are unchanged by one shape step and by any sequence of steps. -/
theorem triangle_drift_zero (m : MathEnv) (hsin : m.sin 0 = 0)
    (width height time : ℚ) (tr : Triangle) (us : ℕ → ℚ) (ts : List ℚ) :
    shapePhase (Shape.triangle (makeTriangle m width height us)) = none ∧
    triangleDrift m time (shapePhase (Shape.triangle tr))
      (parallax height tr.y) = 0 ∧
    shapeX ((stepShape m width height time (Shape.triangle tr)).1) = tr.x ∧
    shapeY ((stepShape m width height time (Shape.triangle tr)).1) = tr.y ∧
    shapeX (ts.foldl (fun s t2 => (stepShape m width height t2 s).1)
      (Shape.triangle tr)) = tr.x ∧
    shapeY (ts.foldl (fun s t2 => (stepShape m width height t2 s).1)
      (Shape.triangle tr)) = tr.y := by
  obtain ⟨tr2, heq, hx, hy⟩ := foldl_stepShape_triangle m hsin width height ts tr
  refine ⟨rfl, ?_, ?_, ?_, ?_, ?_⟩
  · simp [triangleDrift, shapePhase, jsAdd, jsOfField, jsOrZero, hsin]
  · rw [stepShape_triangle m hsin width height time tr]; rfl
  · rw [stepShape_triangle m hsin width height time tr]; rfl
  · rw [heq]; exact hx
  · rw [heq]; exact hy

/-- C4 witness: evaluated on `triangle0` over the tick times 1, 2, 3. -/
theorem triangle_drift_zero_witness :
    mathEnv0.sin 0 = 0 ∧
    (shapePhase (Shape.triangle (makeTriangle mathEnv0 800 600 (fun _ => 0))) =
       none ∧
     triangleDrift mathEnv0 2 (shapePhase (Shape.triangle triangle0))
       (parallax 600 triangle0.y) = 0 ∧
     shapeX ((stepShape mathEnv0 800 600 2 (Shape.triangle triangle0)).1) =
       triangle0.x ∧
     shapeY ((stepShape mathEnv0 800 600 2 (Shape.triangle triangle0)).1) =
       triangle0.y ∧
     shapeX ([1, 2, 3].foldl (fun s t2 => (stepShape mathEnv0 800 600 t2 s).1)
       (Shape.triangle triangle0)) = triangle0.x ∧
     shapeY ([1, 2, 3].foldl (fun s t2 => (stepShape mathEnv0 800 600 t2 s).1)
       (Shape.triangle triangle0)) = triangle0.y) :=
  ⟨rfl, triangle_drift_zero mathEnv0 rfl 800 600 2 triangle0 (fun _ => 0) [1, 2, 3]⟩

/-- Helper: the record part of `drawCircle` spelled out — the velocity
drift followed by the two sequential wrap tests per axis. -/
theorem drawCircle_fst (m : MathEnv) (width height : ℚ) (s : Circle) (t : ℚ) :
    (drawCircle m width height s t).1 =
      { s with
        x := if (if s.x + s.vx < -s.r then width + s.r else s.x + s.vx) >
               width + s.r
             then -s.r
             else (if s.x + s.vx < -s.r then width + s.r else s.x + s.vx),
        y := if (if s.y + s.vy < -s.r then height + s.r else s.y + s.vy) >
               height + s.r
             then -s.r
             else (if s.y + s.vy < -s.r then height + s.r else s.y + s.vy) } :=
  rfl

/-- C1 counterexample: `circleLeftEdge` has left the padded viewport on the
x-axis (`x < -r`) before the frame update, with a velocity inside the
generator's range `[-0.03, 0.03]`, yet the `drawCircle` update does not
teleport it to the opposite edge: the new `x` is `-r + 1/100`, not
`width + r`. -/
theorem drawCircle_wrap_counterexample :
    circleLeftEdge.x < -circleLeftEdge.r ∧
    -(3/100) ≤ circleLeftEdge.vx ∧ circleLeftEdge.vx ≤ 3/100 ∧
    (drawCircle mathEnv0 800 600 circleLeftEdge 0).1.x =
      -circleLeftEdge.r + 1/100 ∧
    (drawCircle mathEnv0 800 600 circleLeftEdge 0).1.x ≠
      800 + circleLeftEdge.r := by
  rw [drawCircle_fst]
  norm_num [circleLeftEdge]

/-- C1 amended: the wrap test reads the post-drift center. After
`x += vx` (resp. `y += vy`), a coordinate beyond the padded viewport is
teleported to the opposite edge — `x + vx > width + r` yields `x = -r`
(hence `x ≤ 0`), `x + vx < -r` yields `x = width + r`, and the same for
`y` against `height`; in particular a circle at `x = width + r + 1` with
`|vx| < 1` lands at `x = -r ≤ 0`; the velocity fields `vx`, `vy` are
unchanged. -/
theorem drawCircle_wrap (m : MathEnv) (width height t : ℚ) (c : Circle)
    (hr : 0 < c.r) (hw : 0 < width) (hh : 0 < height) :
    (c.x + c.vx < -c.r →
      (drawCircle m width height c t).1.x = width + c.r) ∧
    (c.x + c.vx > width + c.r →
      (drawCircle m width height c t).1.x = -c.r) ∧
    (c.y + c.vy < -c.r →
      (drawCircle m width height c t).1.y = height + c.r) ∧
    (c.y + c.vy > height + c.r →
      (drawCircle m width height c t).1.y = -c.r) ∧
    (c.x = width + c.r + 1 → |c.vx| < 1 →
      (drawCircle m width height c t).1.x = -c.r ∧
      (drawCircle m width height c t).1.x ≤ 0) ∧
    (drawCircle m width height c t).1.vx = c.vx ∧
    (drawCircle m width height c t).1.vy = c.vy := by
  refine ⟨?_, ?_, ?_, ?_, ?_, rfl, rfl⟩
  · intro h
    simp only [drawCircle_fst]
    rw [if_pos h, if_neg (lt_irrefl (width + c.r))]
  · intro h
    have h1 : ¬(c.x + c.vx < -c.r) := by linarith
    simp only [drawCircle_fst]
    rw [if_neg h1, if_pos h]
  · intro h
    simp only [drawCircle_fst]
    rw [if_pos h, if_neg (lt_irrefl (height + c.r))]
  · intro h
    have h1 : ¬(c.y + c.vy < -c.r) := by linarith
    simp only [drawCircle_fst]
    rw [if_neg h1, if_pos h]
  · intro hx hv
    obtain ⟨hv1, hv2⟩ := abs_lt.mp hv
    have h : c.x + c.vx > width + c.r := by rw [hx]; linarith
    have h1 : ¬(c.x + c.vx < -c.r) := by rw [hx]; intro hcon; linarith
    have hres : (drawCircle m width height c t).1.x = -c.r := by
      simp only [drawCircle_fst]
      rw [if_neg h1, if_pos h]
    exact ⟨hres, by rw [hres]; linarith⟩

/-- C1 amended witness: `circleRightEdge` sits at `x = width + r + 1` for
`width = 800`, `r = 20`; one `drawCircle` update teleports it to
`x = -r ≤ 0` with its velocity untouched. -/
theorem drawCircle_wrap_witness :
    0 < circleRightEdge.r ∧ 0 < (800 : ℚ) ∧ 0 < (600 : ℚ) ∧
    (drawCircle mathEnv0 800 600 circleRightEdge 0).1.x = -circleRightEdge.r ∧
    (drawCircle mathEnv0 800 600 circleRightEdge 0).1.x ≤ 0 ∧
    (drawCircle mathEnv0 800 600 circleRightEdge 0).1.vx = circleRightEdge.vx := by
  have h := drawCircle_wrap mathEnv0 800 600 0 circleRightEdge
    (by norm_num [circleRightEdge]) (by norm_num) (by norm_num)
  have he := h.2.2.2.2.1 (by norm_num [circleRightEdge])
    (by norm_num [circleRightEdge, abs_lt])
  exact ⟨by norm_num [circleRightEdge], by norm_num, by norm_num,
    he.1, he.2, h.2.2.2.2.2.1⟩

end Sketch
